import Mathlib

/-!
# ZenithFence: registration helpers of the kernel extension (helper.c)

Shallow embedding of `src/wfp_lib/helper.c` and `src/wdk/src/c/helper.c`.
The two files hold the same function bodies under two naming schemes
(`pm_InitDriverObject` / `c_init_driver_object`, ...); both are embedded.

The functions are straight-line wrappers around calls into the Windows Driver
Framework (WDF) and the Windows Filtering Platform (WFP).  The operating system
is modelled by
* an *outcome* record (what each OS call answers in this run), and
* a *state* record holding the objects the OS keeps for the driver together
  with the trace of the calls issued, in order.
Every C function becomes a Lean function from the state before the call to the
returned status (and out-parameters) and the state after it.
-/

namespace ZenithFence

/-! ## Status codes (ntdef.h, ntstatus.h) -/

/-- NTSTATUS is a signed 32-bit integer; the sign bit tells failure. -/
abbrev NTSTATUS := Int

/-- The macro `NT_SUCCESS(Status)` is `((NTSTATUS)(Status)) >= 0`. -/
def NT_SUCCESS (status : NTSTATUS) : Bool := decide (0 ≤ status)

def STATUS_SUCCESS : NTSTATUS := 0

/-- The value 0xC000009A read as a signed 32-bit integer. -/
def STATUS_INSUFFICIENT_RESOURCES : NTSTATUS := 0xC000009A - 2 ^ 32

/-- The value 0xC0000035 read as a signed 32-bit integer. -/
def STATUS_OBJECT_NAME_COLLISION : NTSTATUS := 0xC0000035 - 2 ^ 32

/-- The value 0xC0220001 read as a signed 32-bit integer. -/
def STATUS_FWP_CALLOUT_NOT_FOUND : NTSTATUS := 0xC0220001 - 2 ^ 32

/-- The value 0xC0220009 read as a signed 32-bit integer. -/
def STATUS_FWP_ALREADY_EXISTS : NTSTATUS := 0xC0220009 - 2 ^ 32

/-! ## Control device creation: the WDF side -/

/-- Wide-character strings (`wchar_t *`) are carried as their text. -/
abbrev WString := String

def FILE_DEVICE_NETWORK : Nat := 0x12

def FILE_DEVICE_SECURE_OPEN : Nat := 0x100

/-- The framework calls issued by the driver, with the arguments that the
source passes explicitly. -/
inductive WdfCall where
  | WdfDriverCreate
  | WdfControlDeviceInitAllocate
  | WdfDeviceInitSetDeviceType (deviceType : Nat)
  | WdfDeviceInitSetCharacteristics (characteristics : Nat) (orInValues : Bool)
  | WdfDeviceInitAssignName (deviceName : WString)
  | WdfPdoInitAssignRawDevice
  | WdfDeviceInitSetDeviceClass
  | WdfDeviceCreate
  | WdfDeviceInitFree
  | WdfDeviceCreateSymbolicLink (symbolicLinkName : WString)
  | WdfControlFinishInitializing
  deriving DecidableEq, Repr

/-- What the framework answers to each fallible call in one run. -/
structure WdfOutcome where
  /-- status of `WdfDriverCreate` -/
  driverCreate : NTSTATUS
  /-- whether `WdfControlDeviceInitAllocate` returns a non-null descriptor -/
  deviceInitAllocate : Bool
  /-- status of `WdfDeviceInitAssignName` -/
  assignName : NTSTATUS
  /-- status of `WdfPdoInitAssignRawDevice` -/
  assignRawDevice : NTSTATUS
  /-- status of `WdfDeviceCreate` -/
  deviceCreate : NTSTATUS
  /-- status of `WdfDeviceCreateSymbolicLink` -/
  createSymbolicLink : NTSTATUS
  deriving DecidableEq, Repr

/-- The framework objects that exist for this driver, and the calls made. -/
structure WdfState where
  /-- calls issued so far, oldest first -/
  trace : List WdfCall
  /-- a WDFDRIVER object exists -/
  driver : Bool
  /-- a WDFDEVICE_INIT descriptor is allocated and owned by the driver -/
  deviceInit : Bool
  /-- a WDFDEVICE control device object exists -/
  device : Bool
  /-- the symbolic link is published -/
  symbolicLink : Bool
  /-- the control device finished initializing: it accepts opens -/
  ready : Bool
  deriving DecidableEq, Repr

/-- The state at driver entry: nothing created, nothing called. -/
def WdfState.initial : WdfState :=
  { trace := [], driver := false, deviceInit := false, device := false,
    symbolicLink := false, ready := false }

def WdfState.log (s : WdfState) (c : WdfCall) : WdfState :=
  { s with trace := s.trace ++ [c] }

/-- On success the framework creates the driver object. -/
def WdfDriverCreate (o : WdfOutcome) (s : WdfState) : NTSTATUS × WdfState :=
  (o.driverCreate,
    { s.log .WdfDriverCreate with driver := s.driver || NT_SUCCESS o.driverCreate })

/-- Returns whether the descriptor pointer is non-null; a non-null descriptor
is owned by the driver until it is consumed or freed. -/
def WdfControlDeviceInitAllocate (o : WdfOutcome) (s : WdfState) : Bool × WdfState :=
  (o.deviceInitAllocate,
    { s.log .WdfControlDeviceInitAllocate with
      deviceInit := s.deviceInit || o.deviceInitAllocate })

def WdfDeviceInitSetDeviceType (deviceType : Nat) (s : WdfState) : WdfState :=
  s.log (.WdfDeviceInitSetDeviceType deviceType)

def WdfDeviceInitSetCharacteristics (characteristics : Nat) (orInValues : Bool)
    (s : WdfState) : WdfState :=
  s.log (.WdfDeviceInitSetCharacteristics characteristics orInValues)

def WdfDeviceInitAssignName (o : WdfOutcome) (deviceName : WString) (s : WdfState) :
    NTSTATUS × WdfState :=
  (o.assignName, s.log (.WdfDeviceInitAssignName deviceName))

def WdfPdoInitAssignRawDevice (o : WdfOutcome) (s : WdfState) : NTSTATUS × WdfState :=
  (o.assignRawDevice, s.log .WdfPdoInitAssignRawDevice)

def WdfDeviceInitSetDeviceClass (s : WdfState) : WdfState :=
  s.log .WdfDeviceInitSetDeviceClass

/-- On success the framework consumes the descriptor (the caller's pointer is
set to null) and creates the device object; on failure the descriptor stays
with the caller. -/
def WdfDeviceCreate (o : WdfOutcome) (s : WdfState) : NTSTATUS × WdfState :=
  if NT_SUCCESS o.deviceCreate then
    (o.deviceCreate, { s.log .WdfDeviceCreate with deviceInit := false, device := true })
  else
    (o.deviceCreate, s.log .WdfDeviceCreate)

/-- Releases the descriptor. -/
def WdfDeviceInitFree (s : WdfState) : WdfState :=
  { s.log .WdfDeviceInitFree with deviceInit := false }

def WdfDeviceCreateSymbolicLink (o : WdfOutcome) (symbolicLinkName : WString)
    (s : WdfState) : NTSTATUS × WdfState :=
  (o.createSymbolicLink,
    { s.log (.WdfDeviceCreateSymbolicLink symbolicLinkName) with
      symbolicLink := s.symbolicLink || NT_SUCCESS o.createSymbolicLink })

/-- Marks the control device ready to accept opens. -/
def WdfControlFinishInitializing (s : WdfState) : WdfState :=
  { s.log .WdfControlFinishInitializing with ready := true }

/-- Embedding of `pm_InitDriverObject` (src/wfp_lib/helper.c, lines 41-83). -/
def pm_InitDriverObject (o : WdfOutcome) (win_device_name dos_device_name : WString)
    (s : WdfState) : NTSTATUS × WdfState :=
  let deviceName := win_device_name
  let deviceSymlink := dos_device_name
  -- Create a WDFDRIVER for this driver
  let (status, s) := WdfDriverCreate o s
  if !NT_SUCCESS status then (status, s) else
  -- Create a WDFDEVICE for this driver
  let (deviceInit, s) := WdfControlDeviceInitAllocate o s
  if !deviceInit then (STATUS_INSUFFICIENT_RESOURCES, s) else
  let s := WdfDeviceInitSetDeviceType FILE_DEVICE_NETWORK s
  let s := WdfDeviceInitSetCharacteristics FILE_DEVICE_SECURE_OPEN false s
  let (_, s) := WdfDeviceInitAssignName o deviceName s
  let (_, s) := WdfPdoInitAssignRawDevice o s
  let s := WdfDeviceInitSetDeviceClass s
  let (status, s) := WdfDeviceCreate o s
  if !NT_SUCCESS status then
    let s := WdfDeviceInitFree s
    (status, s)
  else
  let (status, s) := WdfDeviceCreateSymbolicLink o deviceSymlink s
  if !NT_SUCCESS status then (status, s) else
  let s := WdfControlFinishInitializing s
  (STATUS_SUCCESS, s)

/-- Embedding of `c_init_driver_object` (src/wdk/src/c/helper.c, lines 41-83). -/
def c_init_driver_object (o : WdfOutcome) (win_device_name dos_device_name : WString)
    (s : WdfState) : NTSTATUS × WdfState :=
  let deviceName := win_device_name
  let deviceSymlink := dos_device_name
  let (status, s) := WdfDriverCreate o s
  if !NT_SUCCESS status then (status, s) else
  let (deviceInit, s) := WdfControlDeviceInitAllocate o s
  if !deviceInit then (STATUS_INSUFFICIENT_RESOURCES, s) else
  let s := WdfDeviceInitSetDeviceType FILE_DEVICE_NETWORK s
  let s := WdfDeviceInitSetCharacteristics FILE_DEVICE_SECURE_OPEN false s
  let (_, s) := WdfDeviceInitAssignName o deviceName s
  let (_, s) := WdfPdoInitAssignRawDevice o s
  let s := WdfDeviceInitSetDeviceClass s
  let (status, s) := WdfDeviceCreate o s
  if !NT_SUCCESS status then
    let s := WdfDeviceInitFree s
    (status, s)
  else
  let (status, s) := WdfDeviceCreateSymbolicLink o deviceSymlink s
  if !NT_SUCCESS status then (status, s) else
  let s := WdfControlFinishInitializing s
  (STATUS_SUCCESS, s)

/-! ## Filtering engine: the WFP side -/

abbrev GUID := Nat

abbrev HANDLE := Nat

/-- Conversion of a C integer constant to an unsigned field of the given width. -/
def toUINT8 (n : Nat) : Nat := n % 2 ^ 8

def toUINT16 (n : Nat) : Nat := n % 2 ^ 16

def toUINT32 (n : Nat) : Nat := n % 2 ^ 32

/-! The enumeration FWP_DATA_TYPE (fwptypes.h), first members. -/

def FWP_EMPTY : Nat := 0

def FWP_UINT8 : Nat := 1

def FWP_UINT16 : Nat := 2

def FWP_UINT32 : Nat := 3

def FWP_UINT64 : Nat := 4

def FWP_BYTE_ARRAY16_TYPE : Nat := 11

/-- The tagged union FWP_VALUE: a type tag and one storage cell shared by the
members uint8, uint16, uint32 and the pointer members.  The cell is kept as a
number; a member of width w is the low w bits of the cell (little endian). -/
structure FWP_VALUE where
  type : Nat
  raw : Nat
  deriving DecidableEq, Repr

/-- Zero-initialised value, as in the C initialiser the source uses. -/
def FWP_VALUE.zero : FWP_VALUE := { type := 0, raw := 0 }

def FWP_VALUE.uint8 (v : FWP_VALUE) : Nat := v.raw % 2 ^ 8

def FWP_VALUE.uint16 (v : FWP_VALUE) : Nat := v.raw % 2 ^ 16

def FWP_VALUE.uint32 (v : FWP_VALUE) : Nat := v.raw % 2 ^ 32

/-- Assignment to the member of width w: the low w bits are replaced. -/
def FWP_VALUE.setMember (w : Nat) (v : FWP_VALUE) (x : Nat) : FWP_VALUE :=
  { v with raw := v.raw / 2 ^ w * 2 ^ w + x % 2 ^ w }

def FWP_VALUE.setUint8 (v : FWP_VALUE) (x : Nat) : FWP_VALUE := v.setMember 8 x

structure FWPM_DISPLAY_DATA where
  name : WString
  description : WString
  deriving DecidableEq, Repr

def FWPM_DISPLAY_DATA.zero : FWPM_DISPLAY_DATA := { name := "", description := "" }

/-- The fields of FWPM_SUBLAYER that the source assigns; weight is a UINT16. -/
structure FWPM_SUBLAYER where
  subLayerKey : GUID
  displayData : FWPM_DISPLAY_DATA
  flags : Nat
  weight : Nat
  deriving DecidableEq, Repr

def FWPM_SUBLAYER.zero : FWPM_SUBLAYER :=
  { subLayerKey := 0, displayData := .zero, flags := 0, weight := 0 }

/-- Function pointers stored in a callout: null, a caller-supplied
classification function, or one of the two handlers defined in helper.c. -/
inductive FnRef where
  | null
  | callout_fn (address : Nat)
  | genericNotify
  | genericFlowDelete
  deriving DecidableEq, Repr

/-- Kernel-mode callout (FWPS_CALLOUT). -/
structure FWPS_CALLOUT where
  calloutKey : GUID
  flags : Nat
  classifyFn : FnRef
  notifyFn : FnRef
  flowDeleteFn : FnRef
  deriving DecidableEq, Repr

def FWPS_CALLOUT.zero : FWPS_CALLOUT :=
  { calloutKey := 0, flags := 0, classifyFn := .null, notifyFn := .null,
    flowDeleteFn := .null }

/-- Management-layer callout (FWPM_CALLOUT). -/
structure FWPM_CALLOUT where
  calloutKey : GUID
  displayData : FWPM_DISPLAY_DATA
  flags : Nat
  applicableLayer : GUID
  deriving DecidableEq, Repr

def FWPM_CALLOUT.zero : FWPM_CALLOUT :=
  { calloutKey := 0, displayData := .zero, flags := 0, applicableLayer := 0 }

/-! Action types (fwptypes.h). -/

def FWP_ACTION_FLAG_TERMINATING : Nat := 0x1000

def FWP_ACTION_FLAG_CALLOUT : Nat := 0x4000

def FWP_ACTION_CALLOUT_TERMINATING : Nat :=
  0x3 ||| FWP_ACTION_FLAG_CALLOUT ||| FWP_ACTION_FLAG_TERMINATING

def FWP_ACTION_CALLOUT_UNKNOWN : Nat := 0x5 ||| FWP_ACTION_FLAG_CALLOUT

def FWPM_FILTER_FLAG_CLEAR_ACTION_RIGHT : Nat := 0x8

structure FWPM_ACTION where
  type : Nat
  calloutKey : GUID
  deriving DecidableEq, Repr

/-- The fields of FWPM_FILTER that the source assigns, and the filter key,
which stays zero so that the engine chooses one. -/
structure FWPM_FILTER where
  filterKey : GUID
  displayData : FWPM_DISPLAY_DATA
  flags : Nat
  layerKey : GUID
  subLayerKey : GUID
  weight : FWP_VALUE
  numFilterConditions : Nat
  action : FWPM_ACTION
  deriving DecidableEq, Repr

def FWPM_FILTER.zero : FWPM_FILTER :=
  { filterKey := 0, displayData := .zero, flags := 0, layerKey := 0, subLayerKey := 0,
    weight := .zero, numFilterConditions := 0, action := { type := 0, calloutKey := 0 } }

/-- The filtering-platform calls, with their descriptors. -/
inductive FwpCall where
  | FwpmSubLayerAdd (engineHandle : HANDLE) (subLayer : FWPM_SUBLAYER)
  | FwpsCalloutRegister (deviceObject : Nat) (callout : FWPS_CALLOUT)
  | FwpmCalloutAdd (engineHandle : HANDLE) (callout : FWPM_CALLOUT)
  | FwpmFilterAdd (engineHandle : HANDLE) (filter : FWPM_FILTER)
  | FwpsCalloutUnregisterById (calloutId : Nat)
  deriving DecidableEq, Repr

/-- What the filtering platform answers to each call in one run. -/
structure FwpOutcome where
  /-- status of `FwpmSubLayerAdd` -/
  subLayerAdd : NTSTATUS
  /-- status of `FwpsCalloutRegister` -/
  calloutRegister : NTSTATUS
  /-- run-time id the kernel assigns when `FwpsCalloutRegister` succeeds -/
  calloutId : Nat
  /-- status of `FwpmCalloutAdd` -/
  calloutAdd : NTSTATUS
  /-- status of `FwpmFilterAdd` -/
  filterAdd : NTSTATUS
  /-- id the engine assigns when `FwpmFilterAdd` succeeds -/
  filterId : Nat
  deriving DecidableEq, Repr

/-- What the filtering platform holds for the driver, and the calls made. -/
structure FwpState where
  /-- calls issued so far, oldest first -/
  trace : List FwpCall
  /-- sublayers added to the engine -/
  subLayers : List FWPM_SUBLAYER
  /-- ids present in the kernel-mode callout table -/
  kernelCallouts : List Nat
  /-- callouts advertised to the management layer -/
  managementCallouts : List FWPM_CALLOUT
  /-- filters installed, with their ids -/
  filters : List (Nat × FWPM_FILTER)
  deriving DecidableEq, Repr

def FwpState.initial : FwpState :=
  { trace := [], subLayers := [], kernelCallouts := [], managementCallouts := [],
    filters := [] }

def FwpState.log (s : FwpState) (c : FwpCall) : FwpState :=
  { s with trace := s.trace ++ [c] }

def FwpmSubLayerAdd (o : FwpOutcome) (engineHandle : HANDLE) (subLayer : FWPM_SUBLAYER)
    (s : FwpState) : NTSTATUS × FwpState :=
  if NT_SUCCESS o.subLayerAdd then
    (o.subLayerAdd,
      { s.log (.FwpmSubLayerAdd engineHandle subLayer) with
        subLayers := s.subLayers ++ [subLayer] })
  else
    (o.subLayerAdd, s.log (.FwpmSubLayerAdd engineHandle subLayer))

/-- On success the callout enters the kernel-mode callout table and its
run-time id is written through the `calloutId` pointer; the second component
of the result is the pointed-to cell after the call. -/
def FwpsCalloutRegister (o : FwpOutcome) (deviceObject : Nat) (callout : FWPS_CALLOUT)
    (calloutId : Nat) (s : FwpState) : NTSTATUS × Nat × FwpState :=
  if NT_SUCCESS o.calloutRegister then
    (o.calloutRegister, o.calloutId,
      { s.log (.FwpsCalloutRegister deviceObject callout) with
        kernelCallouts := s.kernelCallouts ++ [o.calloutId] })
  else
    (o.calloutRegister, calloutId, s.log (.FwpsCalloutRegister deviceObject callout))

def FwpmCalloutAdd (o : FwpOutcome) (engineHandle : HANDLE) (callout : FWPM_CALLOUT)
    (s : FwpState) : NTSTATUS × FwpState :=
  if NT_SUCCESS o.calloutAdd then
    (o.calloutAdd,
      { s.log (.FwpmCalloutAdd engineHandle callout) with
        managementCallouts := s.managementCallouts ++ [callout] })
  else
    (o.calloutAdd, s.log (.FwpmCalloutAdd engineHandle callout))

/-- The explicit unregister call available to callers: removes the id from the
kernel-mode callout table when it is there. -/
def FwpsCalloutUnregisterById (calloutId : Nat) (s : FwpState) : NTSTATUS × FwpState :=
  if calloutId ∈ s.kernelCallouts then
    (STATUS_SUCCESS,
      { s.log (.FwpsCalloutUnregisterById calloutId) with
        kernelCallouts := s.kernelCallouts.filter (fun i => i != calloutId) })
  else
    (STATUS_FWP_CALLOUT_NOT_FOUND, s.log (.FwpsCalloutUnregisterById calloutId))

/-- On success the filter is installed and its id is written through the `id`
pointer; the second component of the result is the pointed-to cell after the
call. -/
def FwpmFilterAdd (o : FwpOutcome) (engineHandle : HANDLE) (filter : FWPM_FILTER)
    (id : Nat) (s : FwpState) : NTSTATUS × Nat × FwpState :=
  if NT_SUCCESS o.filterAdd then
    (o.filterAdd, o.filterId,
      { s.log (.FwpmFilterAdd engineHandle filter) with
        filters := s.filters ++ [(o.filterId, filter)] })
  else
    (o.filterAdd, id, s.log (.FwpmFilterAdd engineHandle filter))

/-- Embedding of `pm_RegisterSublayer` (src/wfp_lib/helper.c, lines 99-107). -/
def pm_RegisterSublayer (o : FwpOutcome) (filter_engine_handle : HANDLE)
    (name description : WString) (guid : GUID) (s : FwpState) : NTSTATUS × FwpState :=
  let sublayer := FWPM_SUBLAYER.zero
  let sublayer := { sublayer with subLayerKey := guid }
  let sublayer := { sublayer with displayData.name := name }
  let sublayer := { sublayer with displayData.description := description }
  let sublayer := { sublayer with flags := toUINT32 0 }
  let sublayer := { sublayer with weight := toUINT16 0xFFFF }
  FwpmSubLayerAdd o filter_engine_handle sublayer s

/-- Embedding of `c_register_sublayer` (src/wdk/src/c/helper.c, lines 99-107). -/
def c_register_sublayer (o : FwpOutcome) (filter_engine_handle : HANDLE)
    (name description : WString) (guid : GUID) (s : FwpState) : NTSTATUS × FwpState :=
  let sublayer := FWPM_SUBLAYER.zero
  let sublayer := { sublayer with subLayerKey := guid }
  let sublayer := { sublayer with displayData.name := name }
  let sublayer := { sublayer with displayData.description := description }
  let sublayer := { sublayer with flags := toUINT32 0 }
  let sublayer := { sublayer with weight := toUINT16 0xFFFF }
  FwpmSubLayerAdd o filter_engine_handle sublayer s

/-- Embedding of `pm_RegisterCallout` (src/wfp_lib/helper.c, lines 135-168).
The last argument before the state is the cell `callout_id` points to; the
result carries the cell after the call. -/
def pm_RegisterCallout (o : FwpOutcome) (device_object : Nat)
    (filter_engine_handle : HANDLE) (name description : WString) (guid layer_guid : GUID)
    (callout_fn : Nat) (callout_id : Nat) (s : FwpState) : NTSTATUS × Nat × FwpState :=
  let sCallout := FWPS_CALLOUT.zero
  let mCallout := FWPM_CALLOUT.zero
  let displayData := FWPM_DISPLAY_DATA.zero
  let displayData := { displayData with name := name }
  let displayData := { displayData with description := description }
  -- Register callout
  let sCallout := { sCallout with calloutKey := guid }
  let sCallout := { sCallout with classifyFn := .callout_fn callout_fn }
  let sCallout := { sCallout with notifyFn := .genericNotify }
  let sCallout := { sCallout with flowDeleteFn := .genericFlowDelete }
  let (status, callout_id, s) := FwpsCalloutRegister o device_object sCallout callout_id s
  if !NT_SUCCESS status then (status, callout_id, s) else
  let mCallout := { mCallout with calloutKey := guid }
  let mCallout := { mCallout with displayData := displayData }
  let mCallout := { mCallout with applicableLayer := layer_guid }
  let mCallout := { mCallout with flags := toUINT32 0 }
  let (status, s) := FwpmCalloutAdd o filter_engine_handle mCallout s
  (status, callout_id, s)

/-- Embedding of `c_register_callout` (src/wdk/src/c/helper.c, lines 135-168). -/
def c_register_callout (o : FwpOutcome) (device_object : Nat)
    (filter_engine_handle : HANDLE) (name description : WString) (guid layer_guid : GUID)
    (callout_fn : Nat) (callout_id : Nat) (s : FwpState) : NTSTATUS × Nat × FwpState :=
  let sCallout := FWPS_CALLOUT.zero
  let mCallout := FWPM_CALLOUT.zero
  let displayData := FWPM_DISPLAY_DATA.zero
  let displayData := { displayData with name := name }
  let displayData := { displayData with description := description }
  let sCallout := { sCallout with calloutKey := guid }
  let sCallout := { sCallout with classifyFn := .callout_fn callout_fn }
  let sCallout := { sCallout with notifyFn := .genericNotify }
  let sCallout := { sCallout with flowDeleteFn := .genericFlowDelete }
  let (status, callout_id, s) := FwpsCalloutRegister o device_object sCallout callout_id s
  if !NT_SUCCESS status then (status, callout_id, s) else
  let mCallout := { mCallout with calloutKey := guid }
  let mCallout := { mCallout with displayData := displayData }
  let mCallout := { mCallout with applicableLayer := layer_guid }
  let mCallout := { mCallout with flags := toUINT32 0 }
  let (status, s) := FwpmCalloutAdd o filter_engine_handle mCallout s
  (status, callout_id, s)

/-- Embedding of `pm_RegisterFilter` (src/wfp_lib/helper.c, lines 170-192).
The last argument before the state is the cell `filter_id` points to; the
result carries the cell after the call. -/
def pm_RegisterFilter (o : FwpOutcome) (filter_negine_handle : HANDLE)
    (sublayer_guid : GUID) (name description : WString) (callout_guid layer_guid : GUID)
    (action : Nat) (filter_id : Nat) (s : FwpState) : NTSTATUS × Nat × FwpState :=
  let filter := FWPM_FILTER.zero
  let filter := { filter with displayData.name := name }
  let filter := { filter with displayData.description := description }
  let filter := { filter with action.type := action }
  let filter := { filter with subLayerKey := sublayer_guid }
  let filter := { filter with weight.type := FWP_UINT8 }
  let filter := { filter with weight := filter.weight.setUint8 15 }
  let filter := { filter with flags := FWPM_FILTER_FLAG_CLEAR_ACTION_RIGHT }
  let filter := { filter with numFilterConditions := 0 }
  let filter := { filter with layerKey := layer_guid }
  let filter := { filter with action.calloutKey := callout_guid }
  FwpmFilterAdd o filter_negine_handle filter filter_id s

/-- Embedding of `c_register_filter` (src/wdk/src/c/helper.c, lines 170-193). -/
def c_register_filter (o : FwpOutcome) (filter_negine_handle : HANDLE)
    (sublayer_guid : GUID) (name description : WString) (callout_guid layer_guid : GUID)
    (action : Nat) (filter_id : Nat) (s : FwpState) : NTSTATUS × Nat × FwpState :=
  let filter := FWPM_FILTER.zero
  let filter := { filter with displayData.name := name }
  let filter := { filter with displayData.description := description }
  let filter := { filter with action.type := action }
  let filter := { filter with subLayerKey := sublayer_guid }
  let filter := { filter with weight.type := FWP_UINT8 }
  let filter := { filter with weight := filter.weight.setUint8 15 }
  let filter := { filter with flags := FWPM_FILTER_FLAG_CLEAR_ACTION_RIGHT }
  let filter := { filter with numFilterConditions := 0 }
  let filter := { filter with layerKey := layer_guid }
  let filter := { filter with action.calloutKey := callout_guid }
  FwpmFilterAdd o filter_negine_handle filter filter_id s

/-! ## Field extractor -/

/-- Names of the data fields of the two layers whose field identifiers
helper.c uses. -/
inductive FieldName where
  | IP_PROTOCOL
  | IP_LOCAL_ADDRESS
  | IP_REMOTE_ADDRESS
  | IP_LOCAL_ADDRESS_TYPE
  | IP_LOCAL_PORT
  | IP_REMOTE_PORT
  | IP_LOCAL_INTERFACE
  | INTERFACE_INDEX
  | SUB_INTERFACE_INDEX
  | DIRECTION
  | FLAGS
  | INTERFACE_TYPE
  | TUNNEL_TYPE
  deriving DecidableEq, Repr

/-- A layer schema: the data fields of a layer in the order of the layer's
field-identifier enumeration; a field's slot is its position. -/
abbrev LayerSchema := List FieldName

/-- The enumeration FWPS_FIELDS_DATAGRAM_DATA_V6 of the kit header fwpsk.h,
members in declaration order up to TUNNEL_TYPE. -/
def FWPS_FIELDS_DATAGRAM_DATA_V6 : LayerSchema :=
  [.IP_PROTOCOL, .IP_LOCAL_ADDRESS, .IP_REMOTE_ADDRESS, .IP_LOCAL_ADDRESS_TYPE,
   .IP_LOCAL_PORT, .IP_REMOTE_PORT, .IP_LOCAL_INTERFACE, .INTERFACE_INDEX,
   .SUB_INTERFACE_INDEX, .DIRECTION, .FLAGS, .INTERFACE_TYPE, .TUNNEL_TYPE]

/-- The enumeration FWPS_FIELDS_DATAGRAM_DATA_V4 of the kit header fwpsk.h,
members in declaration order up to TUNNEL_TYPE: the same fields in the same
order as the V6 layer, the addresses being 32-bit values. -/
def FWPS_FIELDS_DATAGRAM_DATA_V4 : LayerSchema :=
  [.IP_PROTOCOL, .IP_LOCAL_ADDRESS, .IP_REMOTE_ADDRESS, .IP_LOCAL_ADDRESS_TYPE,
   .IP_LOCAL_PORT, .IP_REMOTE_PORT, .IP_LOCAL_INTERFACE, .INTERFACE_INDEX,
   .SUB_INTERFACE_INDEX, .DIRECTION, .FLAGS, .INTERFACE_TYPE, .TUNNEL_TYPE]

/-- The enumeration FWPS_FIELDS_INBOUND_IPPACKET_V4 of the kit header fwpsk.h,
members in declaration order up to TUNNEL_TYPE. -/
def FWPS_FIELDS_INBOUND_IPPACKET_V4 : LayerSchema :=
  [.IP_LOCAL_ADDRESS, .IP_REMOTE_ADDRESS, .IP_LOCAL_ADDRESS_TYPE, .IP_LOCAL_INTERFACE,
   .INTERFACE_INDEX, .SUB_INTERFACE_INDEX, .FLAGS, .INTERFACE_TYPE, .TUNNEL_TYPE]

/-- The slot of a field in a layer schema, when the layer has the field. -/
def LayerSchema.slot (schema : LayerSchema) (f : FieldName) : Option Nat :=
  if f ∈ schema then some (schema.indexOf f) else none

def FWPS_FIELD_DATAGRAM_DATA_V6_IP_LOCAL_PORT : Nat :=
  FWPS_FIELDS_DATAGRAM_DATA_V6.indexOf .IP_LOCAL_PORT

def FWPS_FIELD_DATAGRAM_DATA_V6_IP_REMOTE_PORT : Nat :=
  FWPS_FIELDS_DATAGRAM_DATA_V6.indexOf .IP_REMOTE_PORT

def FWPS_FIELD_DATAGRAM_DATA_V6_DIRECTION : Nat :=
  FWPS_FIELDS_DATAGRAM_DATA_V6.indexOf .DIRECTION

def FWPS_FIELD_INBOUND_IPPACKET_V4_IP_LOCAL_ADDRESS : Nat :=
  FWPS_FIELDS_INBOUND_IPPACKET_V4.indexOf .IP_LOCAL_ADDRESS

def FWPS_FIELD_INBOUND_IPPACKET_V4_IP_REMOTE_ADDRESS : Nat :=
  FWPS_FIELDS_INBOUND_IPPACKET_V4.indexOf .IP_REMOTE_ADDRESS

/-- Values of the enumeration FWP_DIRECTION. -/
def FWP_DIRECTION_OUTBOUND : Nat := 0

def FWP_DIRECTION_INBOUND : Nat := 1

structure FWPS_INCOMING_VALUE where
  value : FWP_VALUE
  deriving DecidableEq, Repr

/-- The record handed to a classification function: the layer it belongs to
and the array of its data fields (`valueCount` is the length of the array). -/
structure FWPS_INCOMING_VALUES where
  layerId : Nat
  incomingValue : List FWPS_INCOMING_VALUE
  deriving DecidableEq, Repr

/-- Embedding of `pm_GetLocalPort` (src/wfp_lib/helper.c, lines 198-200).  The
C array access has no defined result outside the array: `none`. -/
def pm_GetLocalPort (inFixedValues : FWPS_INCOMING_VALUES) : Option Nat :=
  (inFixedValues.incomingValue[FWPS_FIELD_DATAGRAM_DATA_V6_IP_LOCAL_PORT]?).map
    (fun v => v.value.uint16)

/-- Embedding of `pm_GetRemotePort` (src/wfp_lib/helper.c, lines 202-204). -/
def pm_GetRemotePort (inFixedValues : FWPS_INCOMING_VALUES) : Option Nat :=
  (inFixedValues.incomingValue[FWPS_FIELD_DATAGRAM_DATA_V6_IP_REMOTE_PORT]?).map
    (fun v => v.value.uint16)

/-- Embedding of `pm_GetDirection` (src/wfp_lib/helper.c, lines 206-208). -/
def pm_GetDirection (inFixedValues : FWPS_INCOMING_VALUES) : Option Nat :=
  (inFixedValues.incomingValue[FWPS_FIELD_DATAGRAM_DATA_V6_DIRECTION]?).map
    (fun v => v.value.uint8)

/-- Embedding of `pm_GetLocalIPv4` (src/wfp_lib/helper.c, lines 210-212). -/
def pm_GetLocalIPv4 (inFixedValues : FWPS_INCOMING_VALUES) : Option Nat :=
  (inFixedValues.incomingValue[FWPS_FIELD_INBOUND_IPPACKET_V4_IP_LOCAL_ADDRESS]?).map
    (fun v => v.value.uint32)

/-- Embedding of `pm_GetRemoteIPv4` (src/wfp_lib/helper.c, lines 214-216). -/
def pm_GetRemoteIPv4 (inFixedValues : FWPS_INCOMING_VALUES) : Option Nat :=
  (inFixedValues.incomingValue[FWPS_FIELD_INBOUND_IPPACKET_V4_IP_REMOTE_ADDRESS]?).map
    (fun v => v.value.uint32)

/-! ### Records filled after a layer schema -/

/-- A record filled after a layer schema: every field of the schema that the
assignment gives a value for is stored in the schema's slot for that field. -/
def recordOfSchema (layerId : Nat) (schema : LayerSchema)
    (fields : FieldName → Option FWP_VALUE) : FWPS_INCOMING_VALUES :=
  { layerId := layerId,
    incomingValue := schema.map (fun f => { value := (fields f).getD .zero }) }

/-- Run-time identifier of the layer FWPM_LAYER_DATAGRAM_DATA_V6 in the
enumeration FWPS_BUILTIN_LAYERS; it is carried along and never inspected. -/
def FWPS_LAYER_DATAGRAM_DATA_V6 : Nat := 26

/-- A datagram-data record: UDP (protocol 17), local port 443, remote port
51000, outbound, the two addresses held as pointers to 16-byte arrays. -/
def datagramRecord : FWPS_INCOMING_VALUES :=
  recordOfSchema FWPS_LAYER_DATAGRAM_DATA_V6 FWPS_FIELDS_DATAGRAM_DATA_V6 (fun f =>
    match f with
    | .IP_PROTOCOL => some { type := FWP_UINT8, raw := 17 }
    | .IP_LOCAL_ADDRESS => some { type := FWP_BYTE_ARRAY16_TYPE, raw := 0xFFFF800012345670 }
    | .IP_REMOTE_ADDRESS => some { type := FWP_BYTE_ARRAY16_TYPE, raw := 0xFFFF800012345680 }
    | .IP_LOCAL_PORT => some { type := FWP_UINT16, raw := 443 }
    | .IP_REMOTE_PORT => some { type := FWP_UINT16, raw := 51000 }
    | .DIRECTION => some { type := FWP_UINT32, raw := FWP_DIRECTION_OUTBOUND }
    | _ => none)

/-- Run-time identifier of the layer FWPM_LAYER_DATAGRAM_DATA_V4 in the
enumeration FWPS_BUILTIN_LAYERS; it is carried along and never inspected. -/
def FWPS_LAYER_DATAGRAM_DATA_V4 : Nat := 24

/-- The IPv4 datagram-data record with the given protocol, local port p, remote
port q, direction d, local address a and remote address b, every value stored
in the slot that the schema of the record's own layer gives to its field. -/
def datagramRecordV4 (protocol p q d a b : Nat) : FWPS_INCOMING_VALUES :=
  recordOfSchema FWPS_LAYER_DATAGRAM_DATA_V4 FWPS_FIELDS_DATAGRAM_DATA_V4 (fun f =>
    match f with
    | .IP_PROTOCOL => some { type := FWP_UINT8, raw := protocol }
    | .IP_LOCAL_ADDRESS => some { type := FWP_UINT32, raw := a }
    | .IP_REMOTE_ADDRESS => some { type := FWP_UINT32, raw := b }
    | .IP_LOCAL_PORT => some { type := FWP_UINT16, raw := p }
    | .IP_REMOTE_PORT => some { type := FWP_UINT16, raw := q }
    | .DIRECTION => some { type := FWP_UINT32, raw := d }
    | _ => none)

/-! ## Runs and predicates used in the statements -/

/-- The four steps whose result the function tests all report success. -/
def allStepsSucceed (o : WdfOutcome) : Bool :=
  NT_SUCCESS o.driverCreate && o.deviceInitAllocate && NT_SUCCESS o.deviceCreate &&
    NT_SUCCESS o.createSymbolicLink

/-- A run in which every framework call succeeds. -/
def runAllSucceed : WdfOutcome :=
  { driverCreate := STATUS_SUCCESS, deviceInitAllocate := true, assignName := STATUS_SUCCESS,
    assignRawDevice := STATUS_SUCCESS, deviceCreate := STATUS_SUCCESS,
    createSymbolicLink := STATUS_SUCCESS }

/-- A run in which driver creation fails. -/
def runDriverCreateFails : WdfOutcome :=
  { runAllSucceed with driverCreate := STATUS_INSUFFICIENT_RESOURCES }

/-- A run in which the descriptor allocation returns null. -/
def runAllocateFails : WdfOutcome :=
  { runAllSucceed with deviceInitAllocate := false }

/-- A run in which device creation fails. -/
def runDeviceCreateFails : WdfOutcome :=
  { runAllSucceed with deviceCreate := STATUS_OBJECT_NAME_COLLISION }

/-- A run in which the symbolic-link creation fails. -/
def runSymbolicLinkFails : WdfOutcome :=
  { runAllSucceed with createSymbolicLink := STATUS_OBJECT_NAME_COLLISION }

/-- An engine that accepts every registration, with fixed ids. -/
def engineAccepts : FwpOutcome :=
  { subLayerAdd := STATUS_SUCCESS, calloutRegister := STATUS_SUCCESS, calloutId := 77,
    calloutAdd := STATUS_SUCCESS, filterAdd := STATUS_SUCCESS, filterId := 4711 }

/-- A run in which the kernel-mode callout registration fails. -/
def calloutRegisterFails : FwpOutcome :=
  { engineAccepts with calloutRegister := STATUS_FWP_ALREADY_EXISTS }

/-- A run in which the kernel-mode callout registration succeeds and the
management-layer step fails. -/
def calloutAddFails : FwpOutcome :=
  { engineAccepts with calloutAdd := STATUS_FWP_ALREADY_EXISTS }

/-- The slots read by the five accessors, in the order local port, remote
port, direction, local address, remote address. -/
def accessorSlots : List Nat :=
  [FWPS_FIELD_DATAGRAM_DATA_V6_IP_LOCAL_PORT, FWPS_FIELD_DATAGRAM_DATA_V6_IP_REMOTE_PORT,
   FWPS_FIELD_DATAGRAM_DATA_V6_DIRECTION, FWPS_FIELD_INBOUND_IPPACKET_V4_IP_LOCAL_ADDRESS,
   FWPS_FIELD_INBOUND_IPPACKET_V4_IP_REMOTE_ADDRESS]

/-! ### Basic facts -/

theorem c_init_driver_object_eq :
    c_init_driver_object = pm_InitDriverObject := rfl

theorem NT_SUCCESS_iff (status : NTSTATUS) : NT_SUCCESS status = true ↔ 0 ≤ status := by
  simp [NT_SUCCESS]

theorem NT_SUCCESS_false_iff (status : NTSTATUS) :
    NT_SUCCESS status = false ↔ status < 0 := by
  simp [NT_SUCCESS]

theorem NT_SUCCESS_false_ne_success (status : NTSTATUS) (h : NT_SUCCESS status = false) :
    status ≠ STATUS_SUCCESS := by
  intro h0
  rw [h0] at h
  exact absurd h (by decide)

theorem NT_SUCCESS_STATUS_SUCCESS : NT_SUCCESS STATUS_SUCCESS = true := by decide

theorem NT_SUCCESS_STATUS_INSUFFICIENT_RESOURCES :
    NT_SUCCESS STATUS_INSUFFICIENT_RESOURCES = false := by decide

/-! ### The five runs of `pm_InitDriverObject` from driver entry

One equation per way through the function: the returned status and the final
state, calls in order. -/

theorem pm_InitDriverObject_driverCreate_fails (o : WdfOutcome) (n d : WString)
    (h1 : NT_SUCCESS o.driverCreate = false) :
    pm_InitDriverObject o n d .initial =
      (o.driverCreate,
        { trace := [.WdfDriverCreate], driver := false, deviceInit := false,
          device := false, symbolicLink := false, ready := false }) := by
  simp [pm_InitDriverObject, WdfDriverCreate, WdfState.log, WdfState.initial, h1]

theorem pm_InitDriverObject_allocate_fails (o : WdfOutcome) (n d : WString)
    (h1 : NT_SUCCESS o.driverCreate = true) (h2 : o.deviceInitAllocate = false) :
    pm_InitDriverObject o n d .initial =
      (STATUS_INSUFFICIENT_RESOURCES,
        { trace := [.WdfDriverCreate, .WdfControlDeviceInitAllocate], driver := true,
          deviceInit := false, device := false, symbolicLink := false, ready := false }) := by
  simp [pm_InitDriverObject, WdfDriverCreate, WdfControlDeviceInitAllocate, WdfState.log,
    WdfState.initial, h1, h2]

theorem pm_InitDriverObject_deviceCreate_fails (o : WdfOutcome) (n d : WString)
    (h1 : NT_SUCCESS o.driverCreate = true) (h2 : o.deviceInitAllocate = true)
    (h3 : NT_SUCCESS o.deviceCreate = false) :
    pm_InitDriverObject o n d .initial =
      (o.deviceCreate,
        { trace := [.WdfDriverCreate, .WdfControlDeviceInitAllocate,
            .WdfDeviceInitSetDeviceType FILE_DEVICE_NETWORK,
            .WdfDeviceInitSetCharacteristics FILE_DEVICE_SECURE_OPEN false,
            .WdfDeviceInitAssignName n, .WdfPdoInitAssignRawDevice,
            .WdfDeviceInitSetDeviceClass, .WdfDeviceCreate, .WdfDeviceInitFree],
          driver := true, deviceInit := false, device := false, symbolicLink := false,
          ready := false }) := by
  simp [pm_InitDriverObject, WdfDriverCreate, WdfControlDeviceInitAllocate,
    WdfDeviceInitSetDeviceType, WdfDeviceInitSetCharacteristics, WdfDeviceInitAssignName,
    WdfPdoInitAssignRawDevice, WdfDeviceInitSetDeviceClass, WdfDeviceCreate,
    WdfDeviceInitFree, WdfState.log, WdfState.initial, h1, h2, h3]

theorem pm_InitDriverObject_symbolicLink_fails (o : WdfOutcome) (n d : WString)
    (h1 : NT_SUCCESS o.driverCreate = true) (h2 : o.deviceInitAllocate = true)
    (h3 : NT_SUCCESS o.deviceCreate = true) (h4 : NT_SUCCESS o.createSymbolicLink = false) :
    pm_InitDriverObject o n d .initial =
      (o.createSymbolicLink,
        { trace := [.WdfDriverCreate, .WdfControlDeviceInitAllocate,
            .WdfDeviceInitSetDeviceType FILE_DEVICE_NETWORK,
            .WdfDeviceInitSetCharacteristics FILE_DEVICE_SECURE_OPEN false,
            .WdfDeviceInitAssignName n, .WdfPdoInitAssignRawDevice,
            .WdfDeviceInitSetDeviceClass, .WdfDeviceCreate,
            .WdfDeviceCreateSymbolicLink d],
          driver := true, deviceInit := false, device := true, symbolicLink := false,
          ready := false }) := by
  simp [pm_InitDriverObject, WdfDriverCreate, WdfControlDeviceInitAllocate,
    WdfDeviceInitSetDeviceType, WdfDeviceInitSetCharacteristics, WdfDeviceInitAssignName,
    WdfPdoInitAssignRawDevice, WdfDeviceInitSetDeviceClass, WdfDeviceCreate,
    WdfDeviceCreateSymbolicLink, WdfState.log, WdfState.initial, h1, h2, h3, h4]

theorem pm_InitDriverObject_all_succeed (o : WdfOutcome) (n d : WString)
    (h1 : NT_SUCCESS o.driverCreate = true) (h2 : o.deviceInitAllocate = true)
    (h3 : NT_SUCCESS o.deviceCreate = true) (h4 : NT_SUCCESS o.createSymbolicLink = true) :
    pm_InitDriverObject o n d .initial =
      (STATUS_SUCCESS,
        { trace := [.WdfDriverCreate, .WdfControlDeviceInitAllocate,
            .WdfDeviceInitSetDeviceType FILE_DEVICE_NETWORK,
            .WdfDeviceInitSetCharacteristics FILE_DEVICE_SECURE_OPEN false,
            .WdfDeviceInitAssignName n, .WdfPdoInitAssignRawDevice,
            .WdfDeviceInitSetDeviceClass, .WdfDeviceCreate,
            .WdfDeviceCreateSymbolicLink d, .WdfControlFinishInitializing],
          driver := true, deviceInit := false, device := true, symbolicLink := true,
          ready := true }) := by
  simp [pm_InitDriverObject, WdfDriverCreate, WdfControlDeviceInitAllocate,
    WdfDeviceInitSetDeviceType, WdfDeviceInitSetCharacteristics, WdfDeviceInitAssignName,
    WdfPdoInitAssignRawDevice, WdfDeviceInitSetDeviceClass, WdfDeviceCreate,
    WdfDeviceCreateSymbolicLink, WdfControlFinishInitializing, WdfState.log,
    WdfState.initial, h1, h2, h3, h4]

theorem eq_pm_InitDriverObject_of_mem
    (f : WdfOutcome → WString → WString → WdfState → NTSTATUS × WdfState)
    (hf : f ∈ [pm_InitDriverObject, c_init_driver_object]) : f = pm_InitDriverObject := by
  rcases List.mem_cons.1 hf with h | h
  · exact h
  · rw [List.mem_singleton.1 h]; rfl

/-! ## Control device creation: the claims -/

/-- C3: in every run of create_control_device from driver entry, the device is
marked ready (WdfControlFinishInitializing is called) if and only if driver
creation, descriptor allocation, device creation and symbolic-link creation all
succeeded; when it is called it is the last call, right after the symbolic-link
creation, which succeeded; in every run that returns an error the device is not
marked ready; and the result is STATUS_SUCCESS exactly in the runs that marked
the device ready. -/
theorem create_control_device_ready_iff (o : WdfOutcome) (n d : WString) :
    ∀ f ∈ [pm_InitDriverObject, c_init_driver_object],
      ((f o n d .initial).2.ready = true ↔ allStepsSucceed o = true) ∧
      (WdfCall.WdfControlFinishInitializing ∈ (f o n d .initial).2.trace ↔
        allStepsSucceed o = true) ∧
      (WdfCall.WdfControlFinishInitializing ∈ (f o n d .initial).2.trace →
        (∃ pre, (f o n d .initial).2.trace =
            pre ++ [.WdfDeviceCreateSymbolicLink d, .WdfControlFinishInitializing] ∧
          WdfCall.WdfControlFinishInitializing ∉ pre) ∧
        NT_SUCCESS o.createSymbolicLink = true ∧
        (f o n d .initial).2.symbolicLink = true) ∧
      (NT_SUCCESS (f o n d .initial).1 = false →
        (f o n d .initial).2.ready = false ∧
        WdfCall.WdfControlFinishInitializing ∉ (f o n d .initial).2.trace) ∧
      ((f o n d .initial).1 = STATUS_SUCCESS ↔ (f o n d .initial).2.ready = true) := by
  intro f hf
  rw [eq_pm_InitDriverObject_of_mem f hf]
  cases h1 : NT_SUCCESS o.driverCreate
  · rw [pm_InitDriverObject_driverCreate_fails o n d h1]
    simp [allStepsSucceed, h1, NT_SUCCESS_false_ne_success _ h1]
  cases h2 : o.deviceInitAllocate
  · rw [pm_InitDriverObject_allocate_fails o n d h1 h2]
    simp [allStepsSucceed, h1, h2,
      NT_SUCCESS_false_ne_success _ NT_SUCCESS_STATUS_INSUFFICIENT_RESOURCES]
  cases h3 : NT_SUCCESS o.deviceCreate
  · rw [pm_InitDriverObject_deviceCreate_fails o n d h1 h2 h3]
    simp [allStepsSucceed, h1, h2, h3, NT_SUCCESS_false_ne_success _ h3]
  cases h4 : NT_SUCCESS o.createSymbolicLink
  · rw [pm_InitDriverObject_symbolicLink_fails o n d h1 h2 h3 h4]
    simp [allStepsSucceed, h1, h2, h3, h4, NT_SUCCESS_false_ne_success _ h4]
  · rw [pm_InitDriverObject_all_succeed o n d h1 h2 h3 h4]
    simp only [allStepsSucceed, h1, h2, h3, h4, NT_SUCCESS_STATUS_SUCCESS]
    refine ⟨by simp, by simp, fun _ => ⟨⟨[.WdfDriverCreate, .WdfControlDeviceInitAllocate,
        .WdfDeviceInitSetDeviceType FILE_DEVICE_NETWORK,
        .WdfDeviceInitSetCharacteristics FILE_DEVICE_SECURE_OPEN false,
        .WdfDeviceInitAssignName n, .WdfPdoInitAssignRawDevice,
        .WdfDeviceInitSetDeviceClass, .WdfDeviceCreate], by simp, by simp⟩, by simp, by simp⟩,
      by simp, by simp⟩

/-- Witness for C3 at the run in which every call succeeds: the device is
marked ready and the result is STATUS_SUCCESS. -/
theorem create_control_device_ready_iff_witness :
    allStepsSucceed runAllSucceed = true ∧
    (pm_InitDriverObject runAllSucceed "PortmasterTest" "PortmasterTestLink" .initial).2.ready
      = true ∧
    (pm_InitDriverObject runAllSucceed "PortmasterTest" "PortmasterTestLink" .initial).1
      = STATUS_SUCCESS :=
  have h := create_control_device_ready_iff runAllSucceed "PortmasterTest"
    "PortmasterTestLink" pm_InitDriverObject (List.mem_cons_self _ _)
  ⟨by decide, h.1.2 (by decide), h.2.2.2.2.2 (h.1.2 (by decide))⟩

/-- C5: create_control_device never masks the error of the step that fails
first.  A failing driver creation, device creation or symbolic-link creation
has its own status returned, whatever failing value it is; a null descriptor
gives STATUS_INSUFFICIENT_RESOURCES; and the calls issued stop at the failing
step (after a failed device creation only the descriptor is freed), so that no
later step is attempted. -/
theorem create_control_device_returns_first_failure (o : WdfOutcome) (n d : WString) :
    ∀ f ∈ [pm_InitDriverObject, c_init_driver_object],
      (NT_SUCCESS o.driverCreate = false →
        (f o n d .initial).1 = o.driverCreate ∧
        (f o n d .initial).2.trace = [.WdfDriverCreate]) ∧
      (NT_SUCCESS o.driverCreate = true → o.deviceInitAllocate = false →
        (f o n d .initial).1 = STATUS_INSUFFICIENT_RESOURCES ∧
        (f o n d .initial).2.trace = [.WdfDriverCreate, .WdfControlDeviceInitAllocate]) ∧
      (NT_SUCCESS o.driverCreate = true → o.deviceInitAllocate = true →
        NT_SUCCESS o.deviceCreate = false →
        (f o n d .initial).1 = o.deviceCreate ∧
        (f o n d .initial).2.trace =
          [.WdfDriverCreate, .WdfControlDeviceInitAllocate,
            .WdfDeviceInitSetDeviceType FILE_DEVICE_NETWORK,
            .WdfDeviceInitSetCharacteristics FILE_DEVICE_SECURE_OPEN false,
            .WdfDeviceInitAssignName n, .WdfPdoInitAssignRawDevice,
            .WdfDeviceInitSetDeviceClass, .WdfDeviceCreate, .WdfDeviceInitFree]) ∧
      (NT_SUCCESS o.driverCreate = true → o.deviceInitAllocate = true →
        NT_SUCCESS o.deviceCreate = true → NT_SUCCESS o.createSymbolicLink = false →
        (f o n d .initial).1 = o.createSymbolicLink ∧
        (f o n d .initial).2.trace =
          [.WdfDriverCreate, .WdfControlDeviceInitAllocate,
            .WdfDeviceInitSetDeviceType FILE_DEVICE_NETWORK,
            .WdfDeviceInitSetCharacteristics FILE_DEVICE_SECURE_OPEN false,
            .WdfDeviceInitAssignName n, .WdfPdoInitAssignRawDevice,
            .WdfDeviceInitSetDeviceClass, .WdfDeviceCreate,
            .WdfDeviceCreateSymbolicLink d]) := by
  intro f hf
  rw [eq_pm_InitDriverObject_of_mem f hf]
  refine ⟨fun h1 => ?_, fun h1 h2 => ?_, fun h1 h2 h3 => ?_, fun h1 h2 h3 h4 => ?_⟩
  · rw [pm_InitDriverObject_driverCreate_fails o n d h1]; exact ⟨rfl, rfl⟩
  · rw [pm_InitDriverObject_allocate_fails o n d h1 h2]; exact ⟨rfl, rfl⟩
  · rw [pm_InitDriverObject_deviceCreate_fails o n d h1 h2 h3]; exact ⟨rfl, rfl⟩
  · rw [pm_InitDriverObject_symbolicLink_fails o n d h1 h2 h3 h4]; exact ⟨rfl, rfl⟩

/-- Witness for C5: one run for each of the four failing steps. -/
theorem create_control_device_returns_first_failure_witness :
    (NT_SUCCESS runDriverCreateFails.driverCreate = false ∧
      (pm_InitDriverObject runDriverCreateFails "PortmasterTest" "PortmasterTestLink"
        .initial).1 = STATUS_INSUFFICIENT_RESOURCES) ∧
    (runAllocateFails.deviceInitAllocate = false ∧
      (pm_InitDriverObject runAllocateFails "PortmasterTest" "PortmasterTestLink"
        .initial).1 = STATUS_INSUFFICIENT_RESOURCES) ∧
    (NT_SUCCESS runDeviceCreateFails.deviceCreate = false ∧
      (c_init_driver_object runDeviceCreateFails "PortmasterTest" "PortmasterTestLink"
        .initial).1 = STATUS_OBJECT_NAME_COLLISION) ∧
    (NT_SUCCESS runSymbolicLinkFails.createSymbolicLink = false ∧
      (c_init_driver_object runSymbolicLinkFails "PortmasterTest" "PortmasterTestLink"
        .initial).1 = STATUS_OBJECT_NAME_COLLISION) :=
  ⟨⟨by decide,
      ((create_control_device_returns_first_failure runDriverCreateFails "PortmasterTest"
        "PortmasterTestLink" pm_InitDriverObject (List.mem_cons_self _ _)).1
        (by decide)).1⟩,
    ⟨by decide,
      ((create_control_device_returns_first_failure runAllocateFails "PortmasterTest"
        "PortmasterTestLink" pm_InitDriverObject (List.mem_cons_self _ _)).2.1
        (by decide) (by decide)).1⟩,
    ⟨by decide,
      ((create_control_device_returns_first_failure runDeviceCreateFails "PortmasterTest"
        "PortmasterTestLink" c_init_driver_object (by simp)).2.2.1
        (by decide) (by decide) (by decide)).1⟩,
    ⟨by decide,
      ((create_control_device_returns_first_failure runSymbolicLinkFails "PortmasterTest"
        "PortmasterTestLink" c_init_driver_object (by simp)).2.2.2
        (by decide) (by decide) (by decide) (by decide)).1⟩⟩

/-- C2, as the claim states it, fails: when the descriptor allocation returns
null the function returns an error while the driver object created by the first
step of the same call still exists; no call releasing it was issued. -/
theorem create_control_device_keeps_driver_on_error :
    NT_SUCCESS (pm_InitDriverObject runAllocateFails "PortmasterTest" "PortmasterTestLink"
      .initial).1 = false ∧
    (pm_InitDriverObject runAllocateFails "PortmasterTest" "PortmasterTestLink"
      .initial).2.driver = true ∧
    (pm_InitDriverObject runAllocateFails "PortmasterTest" "PortmasterTestLink"
      .initial).2.trace = [.WdfDriverCreate, .WdfControlDeviceInitAllocate] ∧
    (c_init_driver_object runAllocateFails "PortmasterTest" "PortmasterTestLink"
      .initial).2.driver = true := by
  rw [c_init_driver_object_eq,
    pm_InitDriverObject_allocate_fails _ _ _ (by decide) (by decide)]
  exact ⟨by decide, rfl, rfl, rfl⟩

/-- C2, amended: on every error return of create_control_device no
device-initialization descriptor is left allocated (a failed device creation is
followed by WdfDeviceInitFree, the last call before the return); when the
symbolic-link creation was not reached no device object exists; and the driver
object is never released by the function: it exists on return exactly when
driver creation succeeded. -/
theorem create_control_device_error_cleanup (o : WdfOutcome) (n d : WString) :
    ∀ f ∈ [pm_InitDriverObject, c_init_driver_object],
      NT_SUCCESS (f o n d .initial).1 = false →
        (f o n d .initial).2.deviceInit = false ∧
        (f o n d .initial).2.driver = NT_SUCCESS o.driverCreate ∧
        (WdfCall.WdfDeviceCreateSymbolicLink d ∉ (f o n d .initial).2.trace →
          (f o n d .initial).2.device = false) ∧
        (WdfCall.WdfDeviceCreate ∈ (f o n d .initial).2.trace →
          NT_SUCCESS o.deviceCreate = false →
          ∃ pre, (f o n d .initial).2.trace =
            pre ++ [.WdfDeviceCreate, .WdfDeviceInitFree]) := by
  intro f hf
  rw [eq_pm_InitDriverObject_of_mem f hf]
  cases h1 : NT_SUCCESS o.driverCreate
  · rw [pm_InitDriverObject_driverCreate_fails o n d h1]
    simp
  cases h2 : o.deviceInitAllocate
  · rw [pm_InitDriverObject_allocate_fails o n d h1 h2]
    simp
  cases h3 : NT_SUCCESS o.deviceCreate
  · rw [pm_InitDriverObject_deviceCreate_fails o n d h1 h2 h3]
    intro _
    refine ⟨rfl, rfl, fun _ => rfl, fun _ _ => ⟨[.WdfDriverCreate,
      .WdfControlDeviceInitAllocate, .WdfDeviceInitSetDeviceType FILE_DEVICE_NETWORK,
      .WdfDeviceInitSetCharacteristics FILE_DEVICE_SECURE_OPEN false,
      .WdfDeviceInitAssignName n, .WdfPdoInitAssignRawDevice,
      .WdfDeviceInitSetDeviceClass], rfl⟩⟩
  cases h4 : NT_SUCCESS o.createSymbolicLink
  · rw [pm_InitDriverObject_symbolicLink_fails o n d h1 h2 h3 h4]
    simp
  · rw [pm_InitDriverObject_all_succeed o n d h1 h2 h3 h4]
    intro h
    exact absurd (show NT_SUCCESS STATUS_SUCCESS = false from h) (by decide)

/-- Witness for the amended C2 at the run in which device creation fails: the
descriptor has been freed and the driver object is still there. -/
theorem create_control_device_error_cleanup_witness :
    NT_SUCCESS (pm_InitDriverObject runDeviceCreateFails "PortmasterTest"
      "PortmasterTestLink" .initial).1 = false ∧
    (pm_InitDriverObject runDeviceCreateFails "PortmasterTest" "PortmasterTestLink"
      .initial).2.deviceInit = false ∧
    (pm_InitDriverObject runDeviceCreateFails "PortmasterTest" "PortmasterTestLink"
      .initial).2.driver = NT_SUCCESS runDeviceCreateFails.driverCreate :=
  have hfail : NT_SUCCESS (pm_InitDriverObject runDeviceCreateFails "PortmasterTest"
      "PortmasterTestLink" .initial).1 = false := by
    rw [pm_InitDriverObject_deviceCreate_fails _ _ _ (by decide) (by decide) (by decide)]
    decide
  have h := create_control_device_error_cleanup runDeviceCreateFails "PortmasterTest"
    "PortmasterTestLink" pm_InitDriverObject (List.mem_cons_self _ _) hfail
  ⟨hfail, h.1, h.2.1⟩

/-! ## Filtering engine: descriptors built by the registration functions -/

theorem c_register_sublayer_eq : c_register_sublayer = pm_RegisterSublayer := rfl

theorem c_register_callout_eq : c_register_callout = pm_RegisterCallout := rfl

theorem pm_RegisterSublayer_eq (o : FwpOutcome) (h : HANDLE) (name description : WString)
    (guid : GUID) (s : FwpState) :
    pm_RegisterSublayer o h name description guid s =
      FwpmSubLayerAdd o h
        { subLayerKey := guid, displayData := { name := name, description := description },
          flags := 0, weight := 0xFFFF } s := by
  simp [pm_RegisterSublayer, FWPM_SUBLAYER.zero, FWPM_DISPLAY_DATA.zero, toUINT16, toUINT32]

theorem pm_RegisterFilter_eq (o : FwpOutcome) (h : HANDLE) (sublayer_guid : GUID)
    (name description : WString) (callout_guid layer_guid : GUID) (action filter_id : Nat)
    (s : FwpState) :
    pm_RegisterFilter o h sublayer_guid name description callout_guid layer_guid action
        filter_id s =
      FwpmFilterAdd o h
        { filterKey := 0, displayData := { name := name, description := description },
          flags := FWPM_FILTER_FLAG_CLEAR_ACTION_RIGHT, layerKey := layer_guid,
          subLayerKey := sublayer_guid, weight := { type := FWP_UINT8, raw := 15 },
          numFilterConditions := 0,
          action := { type := action, calloutKey := callout_guid } } filter_id s := by
  simp [pm_RegisterFilter, FWPM_FILTER.zero, FWPM_DISPLAY_DATA.zero, FWP_VALUE.zero,
    FWP_VALUE.setUint8, FWP_VALUE.setMember]

theorem FwpmSubLayerAdd_status (o : FwpOutcome) (h : HANDLE) (sub : FWPM_SUBLAYER)
    (s : FwpState) :
    (FwpmSubLayerAdd o h sub s).1 = o.subLayerAdd ∧
    (FwpmSubLayerAdd o h sub s).2.trace = s.trace ++ [.FwpmSubLayerAdd h sub] := by
  unfold FwpmSubLayerAdd
  split <;> simp [FwpState.log]

theorem FwpmFilterAdd_status (o : FwpOutcome) (h : HANDLE) (flt : FWPM_FILTER) (id : Nat)
    (s : FwpState) :
    (FwpmFilterAdd o h flt id s).1 = o.filterAdd ∧
    (FwpmFilterAdd o h flt id s).2.2.trace = s.trace ++ [.FwpmFilterAdd h flt] := by
  unfold FwpmFilterAdd
  split <;> simp [FwpState.log]

theorem FwpmFilterAdd_success (o : FwpOutcome) (h : HANDLE) (flt : FWPM_FILTER) (id : Nat)
    (s : FwpState) (hok : NT_SUCCESS o.filterAdd = true) :
    (FwpmFilterAdd o h flt id s).2.1 = o.filterId ∧
    (FwpmFilterAdd o h flt id s).2.2.filters = s.filters ++ [(o.filterId, flt)] := by
  simp [FwpmFilterAdd, hok, FwpState.log]

/-- C9: for every session handle, key, name and description, the sublayer
descriptor that register_sublayer submits to the engine has the weight 0xFFFF,
the largest value of the 16-bit weight field, flags 0, the given key, name and
description; exactly this one call is made, and the engine's status is returned
unchanged. -/
theorem register_sublayer_descriptor (o : FwpOutcome) (h : HANDLE)
    (name description : WString) (guid : GUID) (s : FwpState) :
    ∀ f ∈ [pm_RegisterSublayer, c_register_sublayer],
      ∃ sub : FWPM_SUBLAYER,
        (f o h name description guid s).2.trace = s.trace ++ [.FwpmSubLayerAdd h sub] ∧
        sub.weight = 0xFFFF ∧ sub.weight = 2 ^ 16 - 1 ∧ (∀ w, toUINT16 w ≤ sub.weight) ∧
        sub.flags = 0 ∧ sub.subLayerKey = guid ∧ sub.displayData.name = name ∧
        sub.displayData.description = description ∧
        (f o h name description guid s).1 = o.subLayerAdd := by
  intro f hf
  have hf2 : f = pm_RegisterSublayer := by
    rcases List.mem_cons.1 hf with e | e
    · exact e
    · rw [List.mem_singleton.1 e]; rfl
  subst hf2
  rw [pm_RegisterSublayer_eq]
  refine ⟨_, (FwpmSubLayerAdd_status o h _ s).2, rfl, by norm_num, ?_, rfl, rfl, rfl, rfl,
    (FwpmSubLayerAdd_status o h _ s).1⟩
  intro w
  have : w % 2 ^ 16 < 2 ^ 16 := Nat.mod_lt _ (by norm_num)
  simp only [toUINT16]
  omega

/-- Witness for C9 on an accepting engine, for the second naming of the
function. -/
theorem register_sublayer_descriptor_witness :
    ∃ sub : FWPM_SUBLAYER,
      (c_register_sublayer engineAccepts 1 "PortmasterSublayer" "The Portmaster sublayer"
          0xA87FB472FC684805 .initial).2.trace = [] ++ [.FwpmSubLayerAdd 1 sub] ∧
        sub.weight = 0xFFFF :=
  have h := register_sublayer_descriptor engineAccepts 1 "PortmasterSublayer"
    "The Portmaster sublayer" 0xA87FB472FC684805 .initial c_register_sublayer (by simp)
  h.elim fun sub hs => ⟨sub, hs.1, hs.2.1⟩

/-- C8: for every input, the filter descriptor that register_filter submits to the
engine has zero match conditions, the weight 15 typed as an 8-bit value, and
the given sublayer key, layer key, callout key, action type, name and
description; exactly this one call is made, the engine's status is returned
unchanged, and when the engine accepts, the id it assigns is the one stored
through the filter-id pointer and the one the filter is installed under. -/
theorem register_filter_descriptor (o : FwpOutcome) (h : HANDLE) (sublayer_guid : GUID)
    (name description : WString) (callout_guid layer_guid : GUID) (action filter_id : Nat)
    (s : FwpState) :
    ∀ f ∈ [pm_RegisterFilter, c_register_filter],
      ∃ flt : FWPM_FILTER,
        (f o h sublayer_guid name description callout_guid layer_guid action filter_id
          s).2.2.trace = s.trace ++ [.FwpmFilterAdd h flt] ∧
        flt.numFilterConditions = 0 ∧
        flt.weight.type = FWP_UINT8 ∧ flt.weight.uint8 = 15 ∧
        flt.subLayerKey = sublayer_guid ∧ flt.layerKey = layer_guid ∧
        flt.action.calloutKey = callout_guid ∧ flt.action.type = action ∧
        flt.displayData.name = name ∧ flt.displayData.description = description ∧
        (f o h sublayer_guid name description callout_guid layer_guid action filter_id
          s).1 = o.filterAdd ∧
        (NT_SUCCESS o.filterAdd = true →
          (f o h sublayer_guid name description callout_guid layer_guid action filter_id
            s).2.1 = o.filterId ∧
          (f o h sublayer_guid name description callout_guid layer_guid action filter_id
            s).2.2.filters = s.filters ++ [(o.filterId, flt)]) := by
  intro f hf
  have hf2 : f = pm_RegisterFilter := by
    rcases List.mem_cons.1 hf with e | e
    · exact e
    · rw [List.mem_singleton.1 e]; rfl
  subst hf2
  rw [pm_RegisterFilter_eq]
  exact ⟨_, (FwpmFilterAdd_status o h _ filter_id s).2, rfl, rfl,
    by simp [FWP_VALUE.uint8], rfl, rfl, rfl,
    rfl, rfl, rfl, (FwpmFilterAdd_status o h _ filter_id s).1,
    fun hok => FwpmFilterAdd_success o h _ filter_id s hok⟩

/-- Witness for C8 on an accepting engine: the id the engine assigns comes
back through the filter-id pointer. -/
theorem register_filter_descriptor_witness :
    NT_SUCCESS engineAccepts.filterAdd = true ∧
    (pm_RegisterFilter engineAccepts 1 0xA87FB472FC684805 "PortmasterFilter"
        "The Portmaster filter" 0x58545073F8934B56 0x3D08BF4EADD546CC
        FWP_ACTION_CALLOUT_TERMINATING 0 .initial).2.1 = 4711 :=
  have h := register_filter_descriptor engineAccepts 1 0xA87FB472FC684805
    "PortmasterFilter" "The Portmaster filter" 0x58545073F8934B56 0x3D08BF4EADD546CC
    FWP_ACTION_CALLOUT_TERMINATING 0 .initial pm_RegisterFilter (List.mem_cons_self _ _)
  ⟨by decide, h.elim fun _ hs => (hs.2.2.2.2.2.2.2.2.2.2.2 (by decide)).1⟩

theorem pm_RegisterCallout_register_fails (o : FwpOutcome) (dev : Nat) (h : HANDLE)
    (name description : WString) (guid layer_guid : GUID) (fn id0 : Nat) (s : FwpState)
    (h1 : NT_SUCCESS o.calloutRegister = false) :
    pm_RegisterCallout o dev h name description guid layer_guid fn id0 s =
      (o.calloutRegister, id0,
        { s with trace := s.trace ++ [.FwpsCalloutRegister dev
          { calloutKey := guid, flags := 0, classifyFn := .callout_fn fn,
            notifyFn := .genericNotify, flowDeleteFn := .genericFlowDelete }] }) := by
  simp [pm_RegisterCallout, FwpsCalloutRegister, FWPS_CALLOUT.zero, FwpState.log, h1]

theorem pm_RegisterCallout_add_fails (o : FwpOutcome) (dev : Nat) (h : HANDLE)
    (name description : WString) (guid layer_guid : GUID) (fn id0 : Nat) (s : FwpState)
    (h1 : NT_SUCCESS o.calloutRegister = true) (h2 : NT_SUCCESS o.calloutAdd = false) :
    pm_RegisterCallout o dev h name description guid layer_guid fn id0 s =
      (o.calloutAdd, o.calloutId,
        { s with
          trace := s.trace ++ [.FwpsCalloutRegister dev
              { calloutKey := guid, flags := 0, classifyFn := .callout_fn fn,
                notifyFn := .genericNotify, flowDeleteFn := .genericFlowDelete },
            .FwpmCalloutAdd h
              { calloutKey := guid,
                displayData := { name := name, description := description },
                flags := 0, applicableLayer := layer_guid }],
          kernelCallouts := s.kernelCallouts ++ [o.calloutId] }) := by
  simp [pm_RegisterCallout, FwpsCalloutRegister, FwpmCalloutAdd, FWPS_CALLOUT.zero,
    FWPM_CALLOUT.zero, FWPM_DISPLAY_DATA.zero, FwpState.log, toUINT32, h1, h2]

/-- C1: for every outcome of the two registration steps of register_callout: if
the kernel-mode registration (FwpsCalloutRegister) fails, its status is
returned and it is the only call made, so the management-layer step
(FwpmCalloutAdd) is not attempted; if the first step succeeds and the second
fails, the second step's status is returned, the two steps are the only calls
made, so no unregister call is issued, the callout id written by the first step
is in the caller's cell and in the kernel-mode callout table on return, and an
explicit unregister by that id succeeds and removes it. -/
theorem register_callout_two_steps (o : FwpOutcome) (dev : Nat) (h : HANDLE)
    (name description : WString) (guid layer_guid : GUID) (fn id0 : Nat) (s : FwpState) :
    ∀ f ∈ [pm_RegisterCallout, c_register_callout],
      (NT_SUCCESS o.calloutRegister = false →
        (f o dev h name description guid layer_guid fn id0 s).1 = o.calloutRegister ∧
        (f o dev h name description guid layer_guid fn id0 s).2.2.trace =
          s.trace ++ [.FwpsCalloutRegister dev
            { calloutKey := guid, flags := 0, classifyFn := .callout_fn fn,
              notifyFn := .genericNotify, flowDeleteFn := .genericFlowDelete }] ∧
        (f o dev h name description guid layer_guid fn id0 s).2.2.managementCallouts =
          s.managementCallouts) ∧
      (NT_SUCCESS o.calloutRegister = true → NT_SUCCESS o.calloutAdd = false →
        (f o dev h name description guid layer_guid fn id0 s).1 = o.calloutAdd ∧
        (f o dev h name description guid layer_guid fn id0 s).2.2.trace =
          s.trace ++ [.FwpsCalloutRegister dev
              { calloutKey := guid, flags := 0, classifyFn := .callout_fn fn,
                notifyFn := .genericNotify, flowDeleteFn := .genericFlowDelete },
            .FwpmCalloutAdd h
              { calloutKey := guid,
                displayData := { name := name, description := description },
                flags := 0, applicableLayer := layer_guid }] ∧
        (f o dev h name description guid layer_guid fn id0 s).2.1 = o.calloutId ∧
        o.calloutId ∈ (f o dev h name description guid layer_guid fn id0 s).2.2.kernelCallouts ∧
        (FwpsCalloutUnregisterById (f o dev h name description guid layer_guid fn id0 s).2.1
          (f o dev h name description guid layer_guid fn id0 s).2.2).1 = STATUS_SUCCESS ∧
        o.calloutId ∉ (FwpsCalloutUnregisterById
          (f o dev h name description guid layer_guid fn id0 s).2.1
          (f o dev h name description guid layer_guid fn id0 s).2.2).2.kernelCallouts) := by
  intro f hf
  have hf2 : f = pm_RegisterCallout := by
    rcases List.mem_cons.1 hf with e | e
    · exact e
    · rw [List.mem_singleton.1 e]; rfl
  subst hf2
  refine ⟨fun h1 => ?_, fun h1 h2 => ?_⟩
  · rw [pm_RegisterCallout_register_fails o dev h name description guid layer_guid fn id0 s h1]
    exact ⟨rfl, rfl, rfl⟩
  · rw [pm_RegisterCallout_add_fails o dev h name description guid layer_guid fn id0 s h1 h2]
    refine ⟨rfl, rfl, rfl, by simp, ?_, ?_⟩
    · simp [FwpsCalloutUnregisterById]
    · simp [FwpsCalloutUnregisterById, FwpState.log]

/-- Witness for C1: one run in which the first step fails and one in which
only the second step fails. -/
theorem register_callout_two_steps_witness :
    (NT_SUCCESS calloutRegisterFails.calloutRegister = false ∧
      (pm_RegisterCallout calloutRegisterFails 9 1 "PortmasterCallout"
        "The Portmaster callout" 0x58545073F8934B56 0x3D08BF4EADD546CC 1000 0
        .initial).1 = STATUS_FWP_ALREADY_EXISTS) ∧
    (NT_SUCCESS calloutAddFails.calloutRegister = true ∧
      NT_SUCCESS calloutAddFails.calloutAdd = false ∧
      (c_register_callout calloutAddFails 9 1 "PortmasterCallout"
        "The Portmaster callout" 0x58545073F8934B56 0x3D08BF4EADD546CC 1000 0
        .initial).1 = STATUS_FWP_ALREADY_EXISTS ∧
      (c_register_callout calloutAddFails 9 1 "PortmasterCallout"
        "The Portmaster callout" 0x58545073F8934B56 0x3D08BF4EADD546CC 1000 0
        .initial).2.1 = 77) :=
  ⟨⟨by decide,
      ((register_callout_two_steps calloutRegisterFails 9 1 "PortmasterCallout"
        "The Portmaster callout" 0x58545073F8934B56 0x3D08BF4EADD546CC 1000 0 .initial
        pm_RegisterCallout (List.mem_cons_self _ _)).1 (by decide)).1⟩,
    by decide, by decide,
    ((register_callout_two_steps calloutAddFails 9 1 "PortmasterCallout"
      "The Portmaster callout" 0x58545073F8934B56 0x3D08BF4EADD546CC 1000 0 .initial
      c_register_callout (by simp)).2 (by decide) (by decide)).1,
    ((register_callout_two_steps calloutAddFails 9 1 "PortmasterCallout"
      "The Portmaster callout" 0x58545073F8934B56 0x3D08BF4EADD546CC 1000 0 .initial
      c_register_callout (by simp)).2 (by decide) (by decide)).2.2.1⟩

/-! ## Field extractor -/

theorem accessorSlots_eq : accessorSlots = [4, 5, 9, 0, 1] := by decide

/-- On every IPv4 datagram-data record the two address accessors miss their
field: pm_GetLocalIPv4 reads the protocol slot and pm_GetRemoteIPv4 the
local-address slot. -/
theorem address_accessors_on_datagramRecordV4 (protocol p q d a b : Nat) :
    pm_GetLocalIPv4 (datagramRecordV4 protocol p q d a b) = some (protocol % 2 ^ 32) ∧
    pm_GetRemoteIPv4 (datagramRecordV4 protocol p q d a b) = some (a % 2 ^ 32) :=
  ⟨rfl, rfl⟩

/-- C6 on the code: the round trip fails.  In the IPv4 datagram-data record
holding protocol 17 (UDP), local port 443, remote port 51000, direction
outbound, local address 10.0.0.5 and remote address 93.184.216.34 in the slots
of its layer schema, the port and direction accessors return the stored values,
but pm_GetLocalIPv4 returns 17, the protocol number, and pm_GetRemoteIPv4
returns 10.0.0.5, the local address. -/
theorem field_extractor_round_trip_fails :
    FWPS_FIELDS_DATAGRAM_DATA_V4.slot .IP_LOCAL_ADDRESS = some 1 ∧
    FWPS_FIELDS_DATAGRAM_DATA_V4.slot .IP_REMOTE_ADDRESS = some 2 ∧
    pm_GetLocalPort (datagramRecordV4 17 443 51000 FWP_DIRECTION_OUTBOUND 0x0A000005
      0x5DB8D822) = some 443 ∧
    pm_GetRemotePort (datagramRecordV4 17 443 51000 FWP_DIRECTION_OUTBOUND 0x0A000005
      0x5DB8D822) = some 51000 ∧
    pm_GetDirection (datagramRecordV4 17 443 51000 FWP_DIRECTION_OUTBOUND 0x0A000005
      0x5DB8D822) = some FWP_DIRECTION_OUTBOUND ∧
    pm_GetLocalIPv4 (datagramRecordV4 17 443 51000 FWP_DIRECTION_OUTBOUND 0x0A000005
      0x5DB8D822) = some 17 ∧
    pm_GetLocalIPv4 (datagramRecordV4 17 443 51000 FWP_DIRECTION_OUTBOUND 0x0A000005
      0x5DB8D822) ≠ some 0x0A000005 ∧
    pm_GetRemoteIPv4 (datagramRecordV4 17 443 51000 FWP_DIRECTION_OUTBOUND 0x0A000005
      0x5DB8D822) = some 0x0A000005 ∧
    pm_GetRemoteIPv4 (datagramRecordV4 17 443 51000 FWP_DIRECTION_OUTBOUND 0x0A000005
      0x5DB8D822) ≠ some 0x5DB8D822 := by
  decide

/-- C7 on the code: the slots read by the accessors come from two layers.  In
the datagram-data schema, whose identifiers the port and direction accessors
use, the local and remote address are in slots 1 and 2, while pm_GetLocalIPv4
and pm_GetRemoteIPv4 read slots 0 and 1; the inbound IP-packet schema, whose
identifiers the address accessors use, has no port and no direction field.  On
a datagram-data record pm_GetLocalIPv4 therefore returns the protocol number
and pm_GetRemoteIPv4 the low half of the local-address pointer. -/
theorem field_extractor_mixes_two_layer_schemas :
    accessorSlots = [4, 5, 9, 0, 1] ∧
    FWPS_FIELDS_DATAGRAM_DATA_V6.slot .IP_LOCAL_PORT = some 4 ∧
    FWPS_FIELDS_DATAGRAM_DATA_V6.slot .IP_REMOTE_PORT = some 5 ∧
    FWPS_FIELDS_DATAGRAM_DATA_V6.slot .DIRECTION = some 9 ∧
    FWPS_FIELDS_DATAGRAM_DATA_V6.slot .IP_LOCAL_ADDRESS = some 1 ∧
    FWPS_FIELDS_DATAGRAM_DATA_V6.slot .IP_REMOTE_ADDRESS = some 2 ∧
    FWPS_FIELDS_INBOUND_IPPACKET_V4.slot .IP_LOCAL_ADDRESS = some 0 ∧
    FWPS_FIELDS_INBOUND_IPPACKET_V4.slot .IP_REMOTE_ADDRESS = some 1 ∧
    FWPS_FIELDS_INBOUND_IPPACKET_V4.slot .IP_LOCAL_PORT = none ∧
    FWPS_FIELDS_INBOUND_IPPACKET_V4.slot .IP_REMOTE_PORT = none ∧
    FWPS_FIELDS_INBOUND_IPPACKET_V4.slot .DIRECTION = none ∧
    pm_GetLocalPort datagramRecord = some 443 ∧
    pm_GetRemotePort datagramRecord = some 51000 ∧
    pm_GetDirection datagramRecord = some FWP_DIRECTION_OUTBOUND ∧
    pm_GetLocalIPv4 datagramRecord = some 17 ∧
    pm_GetRemoteIPv4 datagramRecord = some 0x12345670 := by
  refine ⟨accessorSlots_eq, ?_⟩
  decide

end ZenithFence
